import Mathlib

/-!
Verification of `src/server.js`: a minimal Express application whose single
interesting route, `POST /upload`, validates an uploaded file, resizes it to
four predefined sizes via sharp, uploads each resized buffer to the Twitter
media endpoint, and (when at least one upload succeeded) creates one status
update referencing the collected media ids.

Shallow embedding choices:
 * byte buffers are `List Nat` (each entry one byte);
 * the external collaborators (the cover-fit resize of sharp, the Twitter
   client) are an oracle record `World`: `resize` models
   `sharp(buf).resize(w, h, with fit cover).toBuffer()` (`none` = the
   awaited promise rejects), `mediaUpload` models
   `twitterClient.post(media/upload, media_data)` returning the
   `media_id_string` (`none` = throws), `postStatus` models
   `twitterClient.post(statuses/update, ...)` (`false` = throws; the
   handler ignores this outcome either way);
 * the handler returns the HTTP response together with the ordered trace of
   Twitter API calls it issued, so that claims about external effects are
   statable.
-/

/-- One entry of `PREDEFINED_SIZES` (server.js lines 37-42). -/
structure SizeSpec where
  width : Nat
  height : Nat
deriving DecidableEq, Repr

/-- server.js lines 37-42. -/
def PREDEFINED_SIZES : List SizeSpec :=
  [ { width := 300, height := 250 },
    { width := 728, height := 90 },
    { width := 160, height := 600 },
    { width := 300, height := 600 } ]

/-- server.js line 34. -/
def allowedFormats : List String := ["image/jpeg", "image/png", "image/gif"]

/-- `req.file` as produced by multer: in-memory buffer plus declared mimetype. -/
structure UploadedFile where
  buffer : List Nat
  mimetype : String
deriving DecidableEq, Repr

/-- The part of the Express request the handler reads: `req.file` is absent
when no file was attached to the `image` field. -/
structure Request where
  file : Option UploadedFile
deriving DecidableEq, Repr

/-- HTTP status and body sent to the client. -/
structure Response where
  status : Nat
  body : String
deriving DecidableEq, Repr

/-- One entry of `resizedBuffers` (server.js line 99): the resized buffer
together with the width and height of the spec it came from. -/
structure ResizedImage where
  buffer : List Nat
  width : Nat
  height : Nat
deriving DecidableEq, Repr

/-- A call issued to the Twitter client, with its payload. -/
inductive ApiCall where
  | mediaUpload (media_data : String)
  | statusesUpdate (status : String) (media_ids : String)
deriving DecidableEq, Repr

/-- Oracle for the external collaborators of the handler. -/
structure World where
  /-- `sharp(orig).resize(s.width, s.height, with fit cover).toBuffer()`:
  the cover-fit transform of the source bytes for one spec; `none` means the
  call throws (undecodable source or failing resize). -/
  resize : List Nat → SizeSpec → Option (List Nat)
  /-- `twitterClient.post(media/upload, media_data)` projected to its
  `media_id_string`; `none` means the call throws. -/
  mediaUpload : String → Option String
  /-- `twitterClient.post(statuses/update, status, media_ids)`;
  `false` means the call throws.  The handler catches and logs either way, so
  nothing observable depends on this field. -/
  postStatus : String → String → Bool

/-- The base64 alphabet used by the Node Buffer base64 encoding. -/
def base64Chars : List Char :=
  "ABCDEFGHIJKLMNOPQRSTUVWXYZabcdefghijklmnopqrstuvwxyz0123456789+/".toList

def base64Char (n : Nat) : Char := base64Chars.getD n 'A'

/-- `item.buffer.toString(base64)` (server.js line 107): standard base64
with `=` padding, three input bytes per four output characters. -/
def base64Encode : List Nat → String
  | [] => ""
  | [b0] =>
      String.mk [base64Char (b0 / 4), base64Char (b0 % 4 * 16), '=', '=']
  | [b0, b1] =>
      String.mk [base64Char (b0 / 4), base64Char (b0 % 4 * 16 + b1 / 16),
                 base64Char (b1 % 16 * 4), '=']
  | b0 :: b1 :: b2 :: rest =>
      String.mk [base64Char (b0 / 4), base64Char (b0 % 4 * 16 + b1 / 16),
                 base64Char (b1 % 16 * 4 + b2 / 64), base64Char (b2 % 64)]
        ++ base64Encode rest

/-- The resize loop (server.js lines 94-100).  Each spec in order is resized
with the cover fit; an awaited rejection aborts the loop (the exception
propagates to the route's catch).  Returns the built `resizedBuffers` list
(`none` when some resize threw) together with the list of specs for which a
resize call was actually attempted, in order. -/
def resizeLoop (w : World) (orig : List Nat) : List SizeSpec → Option (List ResizedImage) × List SizeSpec
  | [] => (some [], [])
  | size :: rest =>
      match w.resize orig size with
      | none => (none, [size])
      | some buf =>
          let r := resizeLoop w orig rest
          (r.1.map (fun rs =>
              { buffer := buf, width := size.width, height := size.height } :: rs),
           size :: r.2)

/-- The media upload loop (server.js lines 104-118).  Each resized buffer is
base64-encoded and submitted; a throwing upload is caught and logged, so the
loop always continues.  Returns the collected `mediaIds` (successful
`media_id_string`s in submission order) and the trace of upload calls. -/
def uploadLoop (w : World) : List ResizedImage → List String × List ApiCall
  | [] => ([], [])
  | item :: rest =>
      let base64Content := base64Encode item.buffer
      let r := uploadLoop w rest
      match w.mediaUpload base64Content with
      | some mediaId => (mediaId :: r.1, ApiCall.mediaUpload base64Content :: r.2)
      | none => (r.1, ApiCall.mediaUpload base64Content :: r.2)

/-- The publish section (server.js lines 104-132): the upload loop followed,
when `mediaIds.length > 0`, by one `statuses/update` call carrying the fixed
caption and the comma-joined ids.  Both phases swallow their errors, so the
only observable output is the trace of calls issued. -/
def publish (w : World) (resizedBuffers : List ResizedImage) : List ApiCall :=
  let r := uploadLoop w resizedBuffers
  if r.1.length > 0 then
    r.2 ++ [ApiCall.statusesUpdate "Automatically resized images!"
              (String.intercalate "," r.1)]
  else
    r.2

/-- The fixed success body (server.js lines 135-139), the exact template
literal including its surrounding whitespace. -/
def successBody : String :=
  "\n      <h2>Success!</h2>\n      <p>Your image was resized and posted to your X/Twitter account (check logs for details).</p>\n      <a href=\"/\">Go Back</a>\n    "

/-- The `POST /upload` handler (server.js lines 79-144): missing-file check,
format check, resize loop (whose rejection lands in the catch block as a
500), publish section, fixed 200 response.  Returns the response together
with the ordered trace of Twitter API calls issued during the request. -/
def handleUpload (w : World) (req : Request) : Response × List ApiCall :=
  match req.file with
  | none => ({ status := 400, body := "No file uploaded." }, [])
  | some file =>
      if file.mimetype ∉ allowedFormats then
        ({ status := 400, body := "Unsupported file format." }, [])
      else
        match (resizeLoop w file.buffer PREDEFINED_SIZES).1 with
        | none => ({ status := 500, body := "An internal error occurred." }, [])
        | some resizedBuffers =>
            ({ status := 200, body := successBody }, publish w resizedBuffers)

/-- Recognises the post-creation call among the trace entries. -/
def isPostCall : ApiCall → Bool
  | ApiCall.statusesUpdate _ _ => true
  | ApiCall.mediaUpload _ => false

/-- Concrete world: every resize succeeds (with an empty output buffer) and
every media upload throws. -/
def wOk : World :=
  { resize := fun _ _ => some []
    mediaUpload := fun _ => none
    postStatus := fun _ _ => true }

/-- Concrete world: every resize throws. -/
def wBad : World :=
  { resize := fun _ _ => none
    mediaUpload := fun _ => none
    postStatus := fun _ _ => true }

/-- Concrete world: resizes succeed; media upload succeeds exactly for the
base64 encodings of the buffers `[1]` and `[3]`. -/
def wTwo : World :=
  { resize := fun _ _ => some []
    mediaUpload := fun s =>
      if s = "AQ==" then some "m2" else if s = "Aw==" then some "m4" else none
    postStatus := fun _ _ => true }

/-- Four resized images with pairwise distinct buffers. -/
def rsFour : List ResizedImage :=
  [ { buffer := [0], width := 300, height := 250 },
    { buffer := [1], width := 728, height := 90 },
    { buffer := [2], width := 160, height := 600 },
    { buffer := [3], width := 300, height := 600 } ]

/-- When every spec resizes successfully, the loop returns one `ResizedImage`
per spec, in spec order, each buffer the resize of the source for its spec
and each recorded dimension the dimensions of its spec. -/
theorem resizeLoop_ok (w : World) (orig : List Nat) :
    ∀ specs : List SizeSpec, (∀ s ∈ specs, (w.resize orig s).isSome) →
      ∃ rs, resizeLoop w orig specs = (some rs, specs)
        ∧ rs.map (fun r => some r.buffer) = specs.map (w.resize orig)
        ∧ rs.map (fun r => (r.width, r.height)) = specs.map (fun s => (s.width, s.height))
  | [], _ => ⟨[], rfl, rfl, rfl⟩
  | size :: rest, h => by
      obtain ⟨buf, hbuf⟩ :=
        Option.isSome_iff_exists.mp (h size (List.mem_cons_self size rest))
      obtain ⟨rs, hrs, hbufs, hdims⟩ :=
        resizeLoop_ok w orig rest (fun s hs => h s (List.mem_cons_of_mem _ hs))
      refine ⟨{ buffer := buf, width := size.width, height := size.height } :: rs, ?_, ?_, ?_⟩
      · simp [resizeLoop, hbuf, hrs]
      · simp [hbufs, hbuf]
      · simp [hdims]

/-- The media upload loop collects exactly the successful `media_id_string`s
in submission order and issues one upload call per item, in order. -/
theorem uploadLoop_eq (w : World) : ∀ items : List ResizedImage,
    uploadLoop w items
      = (items.filterMap (fun item => w.mediaUpload (base64Encode item.buffer)),
         items.map (fun item => ApiCall.mediaUpload (base64Encode item.buffer)))
  | [] => rfl
  | item :: rest => by
      have ih := uploadLoop_eq w rest
      cases hmu : w.mediaUpload (base64Encode item.buffer) with
      | none => simp [uploadLoop, hmu, ih]
      | some mediaId => simp [uploadLoop, hmu, ih]

/-- No entry of the upload-loop trace is a post-creation call. -/
theorem uploadCalls_no_post (w : World) : ∀ items : List ResizedImage,
    ((uploadLoop w items).2).filter isPostCall = []
  | [] => rfl
  | item :: rest => by
      have ih := uploadCalls_no_post w rest
      cases hmu : w.mediaUpload (base64Encode item.buffer) <;>
        simp [uploadLoop, hmu, isPostCall, ih]

/-- When the resize of spec `i` throws and all earlier specs succeed, the
loop stops there: it attempts exactly the first `i + 1` specs and returns no
output list. -/
theorem resizeLoop_fail (w : World) (orig : List Nat) :
    ∀ (specs : List SizeSpec) (i : Nat) (hi : i < specs.length),
      w.resize orig (specs.get ⟨i, hi⟩) = none →
      (∀ j (hj : j < i), w.resize orig (specs.get ⟨j, Nat.lt_trans hj hi⟩) ≠ none) →
      resizeLoop w orig specs = (none, specs.take (i + 1))
  | [], i, hi, _, _ => absurd hi (by simp)
  | size :: rest, 0, _, hfail, _ => by
      have hfail0 : w.resize orig size = none := hfail
      simp [resizeLoop, hfail0]
  | size :: rest, i + 1, hi, hfail, hok => by
      have h0 : w.resize orig size ≠ none := by
        have h1 := hok 0 (Nat.succ_pos i)
        simpa using h1
      obtain ⟨buf, hbuf⟩ := Option.ne_none_iff_exists.mp h0
      have ih := resizeLoop_fail w orig rest i (by simpa using hi)
        (by simpa using hfail)
        (fun j hj => by simpa using hok (j + 1) (Nat.succ_lt_succ hj))
      simp [resizeLoop, ← hbuf, ih]

/-- C1: once validation passes and all four resize operations complete, the
response is 200 with the fixed success HTML, for every behaviour of the
media-upload and post-creation endpoints (`w.mediaUpload` and `w.postStatus`
are universally quantified): publishing failures never change the status or
body seen by the client. -/
theorem upload_success_fixed_response (w : World) (f : UploadedFile)
    (hfmt : f.mimetype ∈ allowedFormats)
    (hres : ∀ s ∈ PREDEFINED_SIZES, (w.resize f.buffer s).isSome) :
    (handleUpload w { file := some f }).1 = { status := 200, body := successBody } := by
  obtain ⟨rs, hrs, -, -⟩ := resizeLoop_ok w f.buffer PREDEFINED_SIZES hres
  simp [handleUpload, hfmt, hrs]

theorem upload_success_fixed_response_witness :
    (handleUpload wOk { file := some { buffer := [0], mimetype := "image/png" } }).1
      = { status := 200, body := successBody } :=
  upload_success_fixed_response wOk { buffer := [0], mimetype := "image/png" }
    (by decide) (fun _ _ => rfl)

/-- C2: when the source decodes (every resize call succeeds), the resize
loop over `PREDEFINED_SIZES` yields exactly one output per configured spec in
spec order — 4 outputs with recorded dimensions (300, 250), (728, 90),
(160, 600), (300, 600) — and each output buffer is the cover-fit resize
(`w.resize`, the sharp call with fit cover) of the source for its spec. -/
theorem resizer_four_outputs (w : World) (orig : List Nat)
    (hres : ∀ s ∈ PREDEFINED_SIZES, (w.resize orig s).isSome) :
    ∃ rs, resizeLoop w orig PREDEFINED_SIZES = (some rs, PREDEFINED_SIZES)
      ∧ rs.length = PREDEFINED_SIZES.length
      ∧ rs.map (fun r => (r.width, r.height))
          = [(300, 250), (728, 90), (160, 600), (300, 600)]
      ∧ rs.map (fun r => some r.buffer) = PREDEFINED_SIZES.map (w.resize orig) := by
  obtain ⟨rs, hrs, hbufs, hdims⟩ := resizeLoop_ok w orig PREDEFINED_SIZES hres
  refine ⟨rs, hrs, ?_, ?_, hbufs⟩
  · have hlen := congrArg List.length hdims
    simpa using hlen
  · simpa [PREDEFINED_SIZES] using hdims

theorem resizer_four_outputs_witness :
    ∃ rs, resizeLoop wOk [0] PREDEFINED_SIZES = (some rs, PREDEFINED_SIZES)
      ∧ rs.length = PREDEFINED_SIZES.length
      ∧ rs.map (fun r => (r.width, r.height))
          = [(300, 250), (728, 90), (160, 600), (300, 600)]
      ∧ rs.map (fun r => some r.buffer) = PREDEFINED_SIZES.map (wOk.resize [0]) :=
  resizer_four_outputs wOk [0] (fun _ _ => rfl)

/-- C3: the media upload loop attempts every image (one upload call per
resized image, so one failure never stops later uploads), collects exactly
the identifiers of the successful uploads in submission order with failed
entries absent, and hence collects at most as many identifiers as there are
resized images. -/
theorem upload_loop_independent (w : World) (items : List ResizedImage) :
    (uploadLoop w items).2
        = items.map (fun item => ApiCall.mediaUpload (base64Encode item.buffer))
      ∧ (uploadLoop w items).1
        = items.filterMap (fun item => w.mediaUpload (base64Encode item.buffer))
      ∧ (uploadLoop w items).1.length ≤ items.length := by
  have h := uploadLoop_eq w items
  refine ⟨by rw [h], by rw [h], ?_⟩
  rw [h]
  exact List.length_filterMap_le _ _

/-- C4: when every media upload fails, so the collected `mediaIds` sequence
is empty, the publish section issues zero post-creation calls and adds
nothing beyond the upload attempts — the empty case returns normally with no
error raised. -/
theorem empty_mediaIds_silent (w : World) (rs : List ResizedImage)
    (h : (uploadLoop w rs).1 = []) :
    publish w rs = (uploadLoop w rs).2
      ∧ (publish w rs).filter isPostCall = [] := by
  have hpub : publish w rs = (uploadLoop w rs).2 := by
    simp [publish, h]
  exact ⟨hpub, by rw [hpub, uploadCalls_no_post]⟩

theorem empty_mediaIds_silent_witness :
    publish wOk [{ buffer := [0], width := 300, height := 250 }]
        = (uploadLoop wOk [{ buffer := [0], width := 300, height := 250 }]).2
      ∧ (publish wOk [{ buffer := [0], width := 300, height := 250 }]).filter isPostCall = [] :=
  empty_mediaIds_silent wOk [{ buffer := [0], width := 300, height := 250 }] rfl

/-- C5: when the collected `mediaIds` sequence is non-empty (for example 2 of
4 uploads succeeded), the publish section issues exactly one post-creation
call, carrying the fixed caption and the surviving identifiers comma-joined
in original submission order. -/
theorem nonempty_mediaIds_one_post (w : World) (rs : List ResizedImage)
    (h : (uploadLoop w rs).1 ≠ []) :
    (publish w rs).filter isPostCall
      = [ApiCall.statusesUpdate "Automatically resized images!"
           (String.intercalate ","
             (rs.filterMap (fun item => w.mediaUpload (base64Encode item.buffer))))] := by
  have hlen : 0 < (uploadLoop w rs).1.length := List.length_pos.mpr h
  have hids : (uploadLoop w rs).1
      = rs.filterMap (fun item => w.mediaUpload (base64Encode item.buffer)) := by
    rw [uploadLoop_eq]
  have hpub : publish w rs
      = (uploadLoop w rs).2
          ++ [ApiCall.statusesUpdate "Automatically resized images!"
                (String.intercalate "," (uploadLoop w rs).1)] := by
    simp [publish, hlen]
  rw [hpub, List.filter_append, uploadCalls_no_post, hids]
  simp [isPostCall]

theorem nonempty_mediaIds_one_post_witness :
    (publish wTwo rsFour).filter isPostCall
      = [ApiCall.statusesUpdate "Automatically resized images!"
           (String.intercalate ","
             (rsFour.filterMap (fun item => wTwo.mediaUpload (base64Encode item.buffer))))] :=
  nonempty_mediaIds_one_post wTwo rsFour (by decide)

/-- C6: a request with no file attached is answered 400 with body exactly
"No file uploaded.", and no external call is issued, whatever the world. -/
theorem missing_file_response (w : World) :
    handleUpload w { file := none }
      = ({ status := 400, body := "No file uploaded." }, []) := rfl

/-- C7: a request whose attached file declares a content-type outside the
three-entry allow-list is answered 400 with body exactly "Unsupported file
format."; the byte content `f.buffer` is arbitrary and never inspected (the
conclusion holds uniformly in it), and no external call is issued. -/
theorem unsupported_format_response (w : World) (f : UploadedFile)
    (h : f.mimetype ∉ allowedFormats) :
    handleUpload w { file := some f }
      = ({ status := 400, body := "Unsupported file format." }, []) := by
  simp [handleUpload, h]

theorem unsupported_format_response_witness :
    handleUpload wOk { file := some { buffer := [0], mimetype := "text/plain" } }
      = ({ status := 400, body := "Unsupported file format." }, []) :=
  unsupported_format_response wOk { buffer := [0], mimetype := "text/plain" } (by decide)

/-- C8: if the resize of spec `i` fails (decode or resize failure) and the
earlier specs succeeded, the loop attempts only the first `i + 1` specs —
the remaining specs are never processed — and the handler answers 500 with
body exactly "An internal error occurred." having issued zero external API
calls (no publishing attempted). -/
theorem resize_failure_aborts (w : World) (f : UploadedFile)
    (hfmt : f.mimetype ∈ allowedFormats)
    (i : Nat) (hi : i < PREDEFINED_SIZES.length)
    (hfail : w.resize f.buffer (PREDEFINED_SIZES.get ⟨i, hi⟩) = none)
    (hok : ∀ j (hj : j < i),
      w.resize f.buffer (PREDEFINED_SIZES.get ⟨j, Nat.lt_trans hj hi⟩) ≠ none) :
    resizeLoop w f.buffer PREDEFINED_SIZES = (none, PREDEFINED_SIZES.take (i + 1))
      ∧ handleUpload w { file := some f }
          = ({ status := 500, body := "An internal error occurred." }, []) := by
  have hloop := resizeLoop_fail w f.buffer PREDEFINED_SIZES i hi hfail hok
  refine ⟨hloop, ?_⟩
  simp [handleUpload, hfmt, hloop]

theorem resize_failure_aborts_witness :
    resizeLoop wBad [0] PREDEFINED_SIZES = (none, PREDEFINED_SIZES.take 1)
      ∧ handleUpload wBad { file := some { buffer := [0], mimetype := "image/jpeg" } }
          = ({ status := 500, body := "An internal error occurred." }, []) :=
  resize_failure_aborts wBad { buffer := [0], mimetype := "image/jpeg" } (by decide)
    0 (by decide) rfl (fun j hj => absurd hj (Nat.not_lt_zero j))

/-- C9: the missing-file check runs before the content-type check: every
request without a file is answered with body "No file uploaded." and never
with "Unsupported file format." (in the embedding a request without a file
carries no declared content-type at all, so the outcome cannot depend on
one). -/
theorem missing_file_before_format (w : World) (req : Request)
    (h : req.file = none) :
    (handleUpload w req).1.body = "No file uploaded."
      ∧ (handleUpload w req).1.body ≠ "Unsupported file format." := by
  rcases req with ⟨file⟩
  cases h
  have hb : (handleUpload w { file := none }).1.body = "No file uploaded." := rfl
  refine ⟨hb, ?_⟩
  rw [hb]
  decide

theorem missing_file_before_format_witness :
    (handleUpload wOk { file := none }).1.body = "No file uploaded."
      ∧ (handleUpload wOk { file := none }).1.body ≠ "Unsupported file format." :=
  missing_file_before_format wOk { file := none } rfl

/-- C10: rejection is atomic with respect to external effects: every request
answered 400 (missing file or unsupported format) issues zero media-upload
calls and zero post-creation calls — its API-call trace is empty. -/
theorem rejection_no_api_calls (w : World) (req : Request)
    (h : (handleUpload w req).1.status = 400) :
    (handleUpload w req).2 = [] := by
  rcases req with ⟨file⟩
  cases file with
  | none => rfl
  | some f =>
      by_cases hfmt : f.mimetype ∉ allowedFormats
      · simp [handleUpload, hfmt]
      · cases hres : (resizeLoop w f.buffer PREDEFINED_SIZES).1 with
        | none => simp [handleUpload, hfmt, hres]
        | some rs =>
            exfalso
            simp [handleUpload, hfmt, hres] at h

theorem rejection_no_api_calls_witness :
    (handleUpload wOk { file := none }).2 = [] :=
  rejection_no_api_calls wOk { file := none } rfl
